import Mathlib

/-!
Verification of the libcarla Boost.Python binding shim
(`PythonAPI/carla/source/libcarla/libcarla.cpp`).

The file shallowly embeds the binding layer: GIL (interpreter
Ownership Token) traffic is recorded as explicit event traces, the
scripting runtime's callables, lists and objects are abstract types with
the operations the bindings use, and every fallible operation returns
`Except`.  Definitions mirror the C++ source construct by construct;
behavior of `carla::PythonUtil` guards declared outside this repository
is modelled from the specification where noted.
-/

/-- Events a thread can emit at the interpreter-lock boundary.
`acquire`/`release` toggle the GIL (Ownership Token); `nativeCall` is the
wrapped native method body; `callScript` invokes scripting-side code;
`errPrint` is `PyErr_Print`; `destroyObject` destroys a `py::object`. -/
inductive GilEvent where
  | acquire
  | release
  | nativeCall
  | callScript
  | errPrint
  | destroyObject
  deriving DecidableEq, Repr

/-- Whether the GIL is held by the emitting thread after a trace of
events, given whether it was held initially. -/
def gilHeldAfter (init : Bool) : List GilEvent → Bool
  | [] => init
  | GilEvent.acquire :: rest => gilHeldAfter true rest
  | GilEvent.release :: rest => gilHeldAfter false rest
  | _ :: rest => gilHeldAfter init rest

/-- Whether the GIL is held just before the `i`-th event of a trace. -/
def gilHeldBefore (init : Bool) (trace : List GilEvent) (i : Nat) : Bool :=
  gilHeldAfter init (trace.take i)

/-- Shallow embedding of the `CALL_WITHOUT_GIL` adapter family
(`libcarla.cpp:31`): the generated lambda constructs a
`carla::PythonUtil::ReleaseGIL unlock` guard (modelled from the spec:
`ReleaseGIL` lives in `carla/PythonUtil.h`, outside this repository; per
the spec it releases the Ownership Token on construction and re-acquires
it on scope exit, on every exit path), then runs `self.fn(...)`.  The
native method is abstracted as `fn`, which may fail; either way the
guard's destructor re-acquires.  The result is the forwarded native
outcome together with the GIL-event trace of the adapter. -/
def CALL_WITHOUT_GIL {σ α ε : Type} (fn : σ → Except ε α) (self : σ) :
    Except ε α × List GilEvent :=
  match fn self with
  | Except.ok a =>
      (Except.ok a, [GilEvent.release, GilEvent.nativeCall, GilEvent.acquire])
  | Except.error e =>
      (Except.error e, [GilEvent.release, GilEvent.nativeCall, GilEvent.acquire])

/-- A two-thread schedule: each step is a thread id (`true` = the thread
running the adapter, `false` = a second scripting thread) paired with the
event it emits. -/
def Sched : Type := List (Bool × GilEvent)

/-- Validity of a schedule with respect to mutual exclusion: `acquire`
requires the token to be free, `release` requires the emitting thread to
hold it, and any scripting-object operation (`callScript`, `errPrint`,
`destroyObject`) requires the emitting thread to hold it.  `nativeCall`
needs no token.  `holder` is the thread currently holding the token. -/
def validSchedFrom (holder : Option Bool) : List (Bool × GilEvent) → Bool
  | [] => true
  | (t, GilEvent.acquire) :: rest =>
      match holder with
      | none => validSchedFrom (some t) rest
      | some _ => false
  | (t, GilEvent.release) :: rest =>
      match holder with
      | some u => u == t && validSchedFrom none rest
      | none => false
  | (_, GilEvent.nativeCall) :: rest => validSchedFrom holder rest
  | (t, GilEvent.callScript) :: rest =>
      match holder with
      | some u => u == t && validSchedFrom holder rest
      | none => false
  | (t, GilEvent.errPrint) :: rest =>
      match holder with
      | some u => u == t && validSchedFrom holder rest
      | none => false
  | (t, GilEvent.destroyObject) :: rest =>
      match holder with
      | some u => u == t && validSchedFrom holder rest
      | none => false

/-- Which thread holds the token after a prefix of a schedule. -/
def schedHolderAfter (holder : Option Bool) : List (Bool × GilEvent) → Option Bool
  | [] => holder
  | (t, GilEvent.acquire) :: rest => schedHolderAfter (some t) rest
  | (_, GilEvent.release) :: rest => schedHolderAfter none rest
  | _ :: rest => schedHolderAfter holder rest

/-- A concrete interleaving: thread `true` runs a `CALL_WITHOUT_GIL`
adapter while thread `false` acquires the token and touches scripting
objects during the first thread's native call. -/
def interleavedSched : List (Bool × GilEvent) :=
  [(true, GilEvent.release), (false, GilEvent.acquire),
   (true, GilEvent.nativeCall), (false, GilEvent.callScript),
   (false, GilEvent.release), (true, GilEvent.acquire)]

/-- The events of one thread in a schedule, in order. -/
def schedProj (t : Bool) (s : List (Bool × GilEvent)) : List GilEvent :=
  (s.filter (fun p => p.1 == t)).map (fun p => p.2)

/-- Errors signalled to the Python runtime by this layer.  `typeError`
models `PyErr_SetString(PyExc_TypeError, msg)` followed by
`boost::python::throw_error_already_set` (`libcarla.cpp:231`). -/
inductive PyErr where
  | typeError (msg : String)
  deriving DecidableEq, Repr

/-- A scripting-side value passed to `MakeCallback`: `callable` is what
`PyCallable_Check` reports, and `run` is the behavior of invoking it with
a bridged message (its failures `E` model `boost::python::error_already_set`,
i.e. a pending Python exception). -/
structure PyCallable (Msg E : Type) where
  callable : Bool
  run : Msg → Except E Unit

/-- Embedding of `PyCallable_Check(callback.ptr())` (`libcarla.cpp:230`). -/
def PyCallable_Check {Msg E : Type} (callback : PyCallable Msg E) : Bool :=
  callback.callable

/-- Modelled from the spec: `carla::PythonUtil::AcquireGILDeleter`
(declared in `carla/PythonUtil.h`, outside this repository).  Per the
spec, the deleter performs an Acquire Guard before releasing the
underlying scripting object, so its event trace is acquire, destroy,
release.  This is the trace it emits when the last owner drops the
stored callback. -/
def AcquireGILDeleter : List GilEvent :=
  [GilEvent.acquire, GilEvent.destroyObject, GilEvent.release]

/-- The value produced by `MakeCallback`: the captured callable (held
with shared ownership in the source) together with the event trace its
deleter will emit on destruction. -/
structure StoredCallback (Msg E : Type) where
  run : Msg → Except E Unit
  deleterTrace : List GilEvent

/-- Outcome of invoking the stored callback from a native thread:
`propagated` is the error (if any) that escapes to the native caller,
`printed` are the errors reported through `PyErr_Print`, and `trace` is
the GIL-event trace of the invocation. -/
structure InvokeResult (E : Type) where
  propagated : Option E
  printed : List E
  trace : List GilEvent

/-- Body of the lambda returned by `MakeCallback` (`libcarla.cpp:240`):
construct a `carla::PythonUtil::AcquireGIL lock` guard, then
`try { py::call<void>(callback->ptr(), py::object(message)); }
catch (const py::error_already_set &) { PyErr_Print(); }`.
A scripting-side error is caught, printed, and not propagated; the guard
releases the GIL on scope exit on both paths. -/
def invokeStored {Msg E : Type} (callback : Msg → Except E Unit) (message : Msg) :
    InvokeResult E :=
  match callback message with
  | Except.ok _ =>
      ⟨none, [], [GilEvent.acquire, GilEvent.callScript, GilEvent.release]⟩
  | Except.error e =>
      ⟨none, [e],
       [GilEvent.acquire, GilEvent.callScript, GilEvent.errPrint, GilEvent.release]⟩

/-- Invocation of a stored callback wrapper with a native message. -/
def StoredCallback.invoke {Msg E : Type} (w : StoredCallback Msg E) (message : Msg) :
    InvokeResult E :=
  invokeStored w.run message

/-- Embedding of `MakeCallback` (`libcarla.cpp:227`): reject non-callable
arguments with a `TypeError` at registration time; otherwise capture the
callable in a `carla::SharedPtr<py::object>` whose deleter is
`AcquireGILDeleter`, and return the invocation wrapper. -/
def MakeCallback {Msg E : Type} (callback : PyCallable Msg E) :
    Except PyErr (StoredCallback Msg E) :=
  if !PyCallable_Check callback then
    Except.error (PyErr.typeError "callback argument must be callable!")
  else
    Except.ok ⟨callback.run, AcquireGILDeleter⟩

/-- Index loop of `PythonLitstToVector` (`libcarla.cpp:104`): for
`i = 0 .. list_size - 1`, extract `input[i]` as the target type and
`emplace_back` it onto `result`; a failing `boost::python::extract`
throws, aborting the loop with that error. -/
def PythonLitstToVectorGo {PyVal τ : Type} (extract : PyVal → Except PyErr τ)
    (input : List PyVal) (i : Nat) (result : List τ) : Except PyErr (List τ) :=
  if h : i < input.length then
    match extract input[i] with
    | Except.error e => Except.error e
    | Except.ok x => PythonLitstToVectorGo extract input (i + 1) (result ++ [x])
  else
    Except.ok result
termination_by input.length - i

/-- Embedding of `PythonLitstToVector` (`libcarla.cpp:97`): a Python list
is a `List PyVal`; element extraction as the target type `τ` is the
abstract `extract` (a failing extraction raises a `TypeError`-class
Python error).  Starts the index loop at `0` with an empty result. -/
def PythonLitstToVector {PyVal τ : Type} (extract : PyVal → Except PyErr τ)
    (input : List PyVal) : Except PyErr (List τ) :=
  PythonLitstToVectorGo extract input 0 []

/-- Structural reference function: extract every element in order,
stopping at the first failure.  Used to state and prove properties of
the index loop. -/
def extractAll {PyVal τ : Type} (extract : PyVal → Except PyErr τ) :
    List PyVal → Except PyErr (List τ)
  | [] => Except.ok []
  | v :: rest =>
    match extract v with
    | Except.error e => Except.error e
    | Except.ok x =>
      match extractAll extract rest with
      | Except.error e => Except.error e
      | Except.ok xs => Except.ok (x :: xs)

/-- Embedding of the `CALL_RETURNING_LIST` adapter family
(`libcarla.cpp:113`): create a fresh `boost::python::list result`, then
`for (auto &&item : self.fn()) result.append(item);`.  The per-element
bridging performed by `append` is the abstract `toPy`. -/
def CALL_RETURNING_LIST {σ α PyVal : Type} (fn : σ → List α) (toPy : α → PyVal)
    (self : σ) : List PyVal :=
  List.foldl (fun result item => result ++ [toPy item]) [] (fn self)

/-- A scripting-runtime object as produced by the optional bridge: either
the empty `boost::python::object()` (Python `None`) or an object wrapping
a native value. -/
inductive PyObjectRep (τ : Type) where
  | noneObj
  | wrapped (x : τ)
  deriving DecidableEq, Repr

/-- Embedding of `OptionalToPythonObject` (`libcarla.cpp:21`):
`optional.has_value() ? boost::python::object(*optional)
: boost::python::object()`. -/
def OptionalToPythonObject {τ : Type} (optional : Option τ) : PyObjectRep τ :=
  if h : optional.isSome then PyObjectRep.wrapped (optional.get h)
  else PyObjectRep.noneObj

/-- A `carla::SharedPtr<T>` element as seen by the printing helpers:
either null or pointing at a value. -/
inductive SharedPtr (τ : Type) where
  | nullptr
  | ptr (x : τ)
  deriving DecidableEq, Repr

/-- Embedding of the generic `PrintListItem_` overload
(`libcarla.cpp:173`): stream the item (`out << item`); the element's own
rendering is the abstract `show_`. -/
def PrintListItem_ {τ : Type} (show_ : τ → String) (item : τ) : String :=
  show_ item

/-- Embedding of the `carla::SharedPtr<T>` overload of `PrintListItem_`
(`libcarla.cpp:179`): a null pointer prints the literal `nullptr`,
otherwise the pointee is streamed. -/
def PrintListItemShared_ {τ : Type} (show_ : τ → String) (item : SharedPtr τ) :
    String :=
  match item with
  | SharedPtr.nullptr => "nullptr"
  | SharedPtr.ptr x => show_ x

/-- Embedding of `PrintList` (`libcarla.cpp:190`): `out << '['`; if the
list is nonempty, print the first item, then `", "` followed by each
further item; finally `out << ']'`.  `printItem` is the applicable
`PrintListItem_` overload. -/
def PrintList {τ : Type} (printItem : τ → String) (list : List τ) : String :=
  "[" ++
    (match list with
     | [] => ""
     | it :: rest =>
       List.foldl (fun out item => out ++ ", " ++ printItem item)
         (printItem it) rest) ++
  "]"

/-- Embedding of `std::operator<<` for `std::pair` (`libcarla.cpp:213`):
`out << "(" << data.first << "," << data.second << ")"`. -/
def printPair {τ η : Type} (showFst : τ → String) (showSnd : η → String)
    (data : τ × η) : String :=
  "(" ++ showFst data.1 ++ "," ++ showSnd data.2 ++ ")"

/-- Tail of a `", "`-separated rendering: `", "` before every element. -/
def commaSepTail : List String → String
  | [] => ""
  | s :: rest => ", " ++ s ++ commaSepTail rest

/-- Reference rendering: `", "`-separated concatenation of a list of
strings (the expected `e0, e1, ...` shape inside the brackets). -/
def commaSeparated : List String → String
  | [] => ""
  | s :: rest => s ++ commaSepTail rest

/-- The subsystems whose `export_*` functions the module entry point
invokes (`libcarla.cpp:279`). -/
inductive Subsystem where
  | geom
  | control
  | blueprint
  | actor
  | sensor
  | sensor_data
  | snapshot
  | weather
  | world
  | map
  | client
  | exception_
  | commands
  | trafficmanager
  | lightmanager
  | ad_rss
  | osm2odr
  deriving DecidableEq, Repr

/-- The order in which `BOOST_PYTHON_MODULE(libcarla)` invokes the
`export_*` functions (`libcarla.cpp:279`): fifteen unconditional
subsystems, then `export_ad_rss` only under `LIBCARLA_RSS_ENABLED`, then
`export_osm2odr`. -/
def moduleExportOrder (rssEnabled : Bool) : List Subsystem :=
  [Subsystem.geom, Subsystem.control, Subsystem.blueprint, Subsystem.actor,
   Subsystem.sensor, Subsystem.sensor_data, Subsystem.snapshot,
   Subsystem.weather, Subsystem.world, Subsystem.map, Subsystem.client,
   Subsystem.exception_, Subsystem.commands, Subsystem.trafficmanager,
   Subsystem.lightmanager] ++
  (if rssEnabled then [Subsystem.ad_rss] else []) ++
  [Subsystem.osm2odr]

/-- Sequential execution of the export calls: each `export_*` either
succeeds or raises a native failure `e`; the first failure aborts the
remainder (the exception propagates out of the module init function).
Returns the overall outcome and the list of exports actually invoked. -/
def runExports {E : Type} (exp : Subsystem → Except E Unit) :
    List Subsystem → List Subsystem → Except E Unit × List Subsystem
  | [], invoked => (Except.ok (), invoked)
  | s :: rest, invoked =>
    match exp s with
    | Except.error e => (Except.error e, invoked ++ [s])
    | Except.ok _ => runExports exp rest (invoked ++ [s])

/-- Observable outcome of loading the extension module: the value the
body assigned to `scope().attr("__path__")`, the exports invoked, and
whether the load succeeded. -/
structure ModuleLoadResult (E : Type) where
  pathAttr : String
  invoked : List Subsystem
  outcome : Except E Unit

/-- Embedding of the `BOOST_PYTHON_MODULE(libcarla)` body
(`libcarla.cpp:273`): set `scope().attr("__path__") = "libcarla"`, then
run every `export_*` in source order, stopping at the first failure. -/
def BOOST_PYTHON_MODULE_libcarla {E : Type} (exp : Subsystem → Except E Unit)
    (rssEnabled : Bool) : ModuleLoadResult E :=
  ⟨"libcarla", (runExports exp (moduleExportOrder rssEnabled) []).2,
   (runExports exp (moduleExportOrder rssEnabled) []).1⟩

/-- Sample element extractor for concrete instantiations: a scripting
value is an `Option Nat`; `some n` extracts as `n` and `none` fails with
a `TypeError`-class error. -/
def extractNatSample : Option Nat → Except PyErr Nat
  | Option.some n => Except.ok n
  | Option.none => Except.error (PyErr.typeError "bad extract")

/-- Sample export table for concrete instantiations: every subsystem's
export succeeds except `client`, which raises a native failure. -/
def expFailClient : Subsystem → Except String Unit
  | Subsystem.client => Except.error "native failure"
  | _ => Except.ok ()

/-! ## Helper lemmas -/

/-- The index loop of `PythonLitstToVector` computes the in-order
extraction of the remaining elements, appended to the accumulator. -/
theorem PythonLitstToVectorGo_eq {PyVal τ : Type} (extract : PyVal → Except PyErr τ)
    (input : List PyVal) (i : Nat) (result : List τ) :
    PythonLitstToVectorGo extract input i result =
      Except.map (fun xs => result ++ xs) (extractAll extract (input.drop i)) := by
  by_cases h : i < input.length
  · rw [PythonLitstToVectorGo, dif_pos h, List.drop_eq_getElem_cons h]
    simp only [extractAll]
    cases hx : extract input[i] with
    | error e => simp [Except.map]
    | ok x =>
      dsimp only
      rw [PythonLitstToVectorGo_eq extract input (i + 1) (result ++ [x])]
      cases hr : extractAll extract (input.drop (i + 1)) with
      | error e => simp [Except.map]
      | ok xs => simp [Except.map]
  · rw [PythonLitstToVectorGo, dif_neg h,
      List.drop_eq_nil_of_le (Nat.le_of_not_lt h)]
    simp [extractAll, Except.map]
termination_by input.length - i

/-- `PythonLitstToVector` agrees with the structural in-order
extraction. -/
theorem PythonLitstToVector_eq_extractAll {PyVal τ : Type}
    (extract : PyVal → Except PyErr τ) (input : List PyVal) :
    PythonLitstToVector extract input = extractAll extract input := by
  rw [PythonLitstToVector, PythonLitstToVectorGo_eq, List.drop_zero]
  cases extractAll extract input <;> simp [Except.map]

/-- A successful in-order extraction has the same length as its input
and holds, at each index, exactly the extraction of the input element at
that index. -/
theorem extractAll_ok_pointwise {PyVal τ : Type} (extract : PyVal → Except PyErr τ) :
    ∀ (input : List PyVal) (out : List τ),
      extractAll extract input = Except.ok out →
      out.length = input.length ∧
      ∀ (j : Nat) (v : PyVal), input.get? j = some v →
        ∃ x, extract v = Except.ok x ∧ out.get? j = some x := by
  intro input
  induction input with
  | nil =>
    intro out h
    simp only [extractAll] at h
    injection h with h
    subst h
    exact ⟨rfl, by intro j v hv; simp at hv⟩
  | cons v rest ih =>
    intro out h
    simp only [extractAll] at h
    split at h
    · simp at h
    · rename_i x hx
      split at h
      · simp at h
      · rename_i xs hr
        injection h with h
        subst h
        obtain ⟨hlen, hpt⟩ := ih xs hr
        refine ⟨by simp [hlen], ?_⟩
        intro j w hw
        cases j with
        | zero =>
          simp only [List.get?] at hw
          injection hw with hw
          subst hw
          exact ⟨x, hx, rfl⟩
        | succ j =>
          simp only [List.get?] at hw ⊢
          exact hpt j w hw

/-- If every element before index `i` extracts and the element at `i`
fails with `e`, the in-order extraction fails with exactly `e`. -/
theorem extractAll_error_first {PyVal τ : Type} (extract : PyVal → Except PyErr τ) :
    ∀ (input : List PyVal) (i : Nat) (e : PyErr) (v : PyVal),
      input.get? i = some v →
      (∀ (j : Nat) (w : PyVal), j < i → input.get? j = some w →
        ∃ x, extract w = Except.ok x) →
      extract v = Except.error e →
      extractAll extract input = Except.error e := by
  intro input
  induction input with
  | nil => intro i e v hv _ _; simp at hv
  | cons u rest ih =>
    intro i e v hv hpre hx
    cases i with
    | zero =>
      simp only [List.get?] at hv
      injection hv with hv
      subst hv
      simp only [extractAll]
      rw [hx]
    | succ i =>
      obtain ⟨x0, hx0⟩ := hpre 0 u (Nat.succ_pos i) rfl
      have hpre' : ∀ (j : Nat) (w : PyVal), j < i → rest.get? j = some w →
          ∃ x, extract w = Except.ok x := by
        intro j w hj hw
        exact hpre (j + 1) w (Nat.succ_lt_succ hj) hw
      have hrest := ih i e v hv hpre' hx
      simp only [extractAll]
      rw [hx0, hrest]

/-- Round-trip: extracting an elementwise-bridged list recovers the
original list, given elementwise round-trippability. -/
theorem extractAll_map_ok {PyVal α : Type} (extract : PyVal → Except PyErr α)
    (toPy : α → PyVal) (hrt : ∀ x, extract (toPy x) = Except.ok x) :
    ∀ (S : List α), extractAll extract (S.map toPy) = Except.ok S := by
  intro S
  induction S with
  | nil => rfl
  | cons x rest ih =>
    simp only [List.map, extractAll]
    rw [hrt x, ih]

/-- Appending elementwise images with `foldl` is `map`. -/
theorem foldl_append_eq_map {α PyVal : Type} (toPy : α → PyVal) :
    ∀ (l : List α) (acc : List PyVal),
      List.foldl (fun result item => result ++ [toPy item]) acc l =
        acc ++ l.map toPy := by
  intro l
  induction l with
  | nil => intro acc; simp
  | cons x rest ih => intro acc; simp [List.foldl, ih]

/-- The list-returning adapter is elementwise bridging in native
order. -/
theorem CALL_RETURNING_LIST_eq_map {σ α PyVal : Type} (fn : σ → List α)
    (toPy : α → PyVal) (self : σ) :
    CALL_RETURNING_LIST fn toPy self = (fn self).map toPy := by
  rw [CALL_RETURNING_LIST, foldl_append_eq_map]
  simp

/-- The separator fold of `PrintList` produces the `", "`-separated
tail. -/
theorem foldl_sep_eq {τ : Type} (printItem : τ → String) :
    ∀ (rest : List τ) (acc : String),
      List.foldl (fun out item => out ++ ", " ++ printItem item) acc rest =
        acc ++ commaSepTail (rest.map printItem) := by
  intro rest
  induction rest with
  | nil => intro acc; simp [commaSepTail, String.append_empty]
  | cons x r ih =>
    intro acc
    simp only [List.foldl, List.map, commaSepTail]
    rw [ih]
    simp [String.append_assoc]

/-- `PrintList` renders exactly the bracketed `", "`-separated
rendering of the item strings. -/
theorem PrintList_eq {τ : Type} (printItem : τ → String) (list : List τ) :
    PrintList printItem list =
      "[" ++ commaSeparated (list.map printItem) ++ "]" := by
  cases list with
  | nil => rfl
  | cons it rest =>
    simp only [PrintList, List.map, commaSeparated]
    rw [foldl_sep_eq]

/-- When every export succeeds, the export loop runs the whole list. -/
theorem runExports_all_ok {E : Type} (exp : Subsystem → Except E Unit) :
    ∀ (l invoked : List Subsystem), (∀ s ∈ l, exp s = Except.ok ()) →
      runExports exp l invoked = (Except.ok (), invoked ++ l) := by
  intro l
  induction l with
  | nil => intro invoked _; simp [runExports]
  | cons s rest ih =>
    intro invoked hall
    simp only [runExports]
    rw [hall s (by simp)]
    rw [ih (invoked ++ [s]) (fun t ht => hall t (by simp [ht]))]
    simp

/-- The first failing export aborts the loop: the failure is returned
and nothing after the failing subsystem is invoked. -/
theorem runExports_first_error {E : Type} (exp : Subsystem → Except E Unit) :
    ∀ (pre : List Subsystem) (s : Subsystem) (post invoked : List Subsystem)
      (e : E),
      (∀ t ∈ pre, exp t = Except.ok ()) → exp s = Except.error e →
      runExports exp (pre ++ s :: post) invoked =
        (Except.error e, invoked ++ pre ++ [s]) := by
  intro pre
  induction pre with
  | nil =>
    intro s post invoked e _ hs
    simp only [List.nil_append, runExports]
    rw [hs]
    simp
  | cons t rest ih =>
    intro s post invoked e hall hs
    simp only [List.cons_append, runExports]
    rw [hall t (by simp)]
    dsimp only
    show runExports exp (rest ++ s :: post) (invoked ++ [t]) =
      (Except.error e, invoked ++ t :: rest ++ [s])
    rw [ih s post (invoked ++ [t]) e (fun u hu => hall u (by simp [hu])) hs]
    simp

/-- A successful registration stores exactly the supplied callable with
the GIL-acquiring deleter. -/
theorem MakeCallback_ok_inv {Msg E : Type} (cb : PyCallable Msg E)
    (w : StoredCallback Msg E) (h : MakeCallback cb = Except.ok w) :
    w = ⟨cb.run, AcquireGILDeleter⟩ := by
  rw [MakeCallback, PyCallable_Check] at h
  cases hc : cb.callable with
  | false => rw [hc] at h; simp at h
  | true =>
    rw [hc] at h
    simp only [Bool.not_true, Bool.false_eq_true, if_false] at h
    injection h with h
    exact h.symm

/-! ## Claims -/

/-- C1: for every stored callback produced by `MakeCallback` and every
event message, if the captured scripting callable raises, the invocation
wrapper catches the error at the bridge boundary, reports it through
`PyErr_Print`, and returns normally to the native caller without
propagating the error. -/
theorem claim_C1_callback_error_contained :
    ∀ (Msg E : Type) (cb : PyCallable Msg E) (w : StoredCallback Msg E)
      (message : Msg) (e : E),
      MakeCallback cb = Except.ok w →
      cb.run message = Except.error e →
      (w.invoke message).propagated = none ∧
      (w.invoke message).printed = [e] := by
  intro Msg E cb w message e hreg hrun
  have hw := MakeCallback_ok_inv cb w hreg
  subst hw
  rw [StoredCallback.invoke, invokeStored]
  dsimp only
  rw [hrun]
  exact ⟨rfl, rfl⟩

/-- Witness for C1 at a concrete callback that always raises. -/
theorem claim_C1_witness :
    ((⟨fun _ => Except.error "boom", AcquireGILDeleter⟩ :
        StoredCallback Nat String).invoke 5).propagated = none ∧
    ((⟨fun _ => Except.error "boom", AcquireGILDeleter⟩ :
        StoredCallback Nat String).invoke 5).printed = ["boom"] :=
  claim_C1_callback_error_contained Nat String
    ⟨true, fun _ => Except.error "boom"⟩ _ 5 "boom" rfl rfl

/-- C2: `MakeCallback` rejects a non-callable argument at registration
time with a `TypeError` and produces no wrapper; a callable argument
registers without error, capturing exactly the supplied callable. -/
theorem claim_C2_registration_validation :
    ∀ (Msg E : Type) (cb : PyCallable Msg E),
      (cb.callable = false →
        MakeCallback cb =
          Except.error (PyErr.typeError "callback argument must be callable!")) ∧
      (cb.callable = true →
        MakeCallback cb = Except.ok ⟨cb.run, AcquireGILDeleter⟩) := by
  intro Msg E cb
  constructor
  · intro hc
    rw [MakeCallback, PyCallable_Check, hc]
    rfl
  · intro hc
    rw [MakeCallback, PyCallable_Check, hc]
    rfl

/-- Witness for C2 at a concrete non-callable and a concrete callable. -/
theorem claim_C2_witness :
    MakeCallback (⟨false, fun _ => Except.ok ()⟩ : PyCallable Nat String) =
      Except.error (PyErr.typeError "callback argument must be callable!") ∧
    MakeCallback (⟨true, fun _ => Except.ok ()⟩ : PyCallable Nat String) =
      Except.ok ⟨fun _ => Except.ok (), AcquireGILDeleter⟩ :=
  ⟨(claim_C2_registration_validation Nat String ⟨false, fun _ => Except.ok ()⟩).1 rfl,
   (claim_C2_registration_validation Nat String ⟨true, fun _ => Except.ok ()⟩).2 rfl⟩

/-- C3: every wrapper produced by `MakeCallback` carries the
GIL-acquiring deleter: the deleter's trace is `AcquireGILDeleter`, the
stored object's destruction happens only while the token is held (even
though the destroying thread does not hold it initially), and the
deleter releases the token again before finishing. -/
theorem claim_C3_deleter_under_gil :
    ∀ (Msg E : Type) (cb : PyCallable Msg E) (w : StoredCallback Msg E),
      MakeCallback cb = Except.ok w →
      w.deleterTrace = AcquireGILDeleter ∧
      (∀ i, w.deleterTrace.get? i = some GilEvent.destroyObject →
        gilHeldBefore false w.deleterTrace i = true) ∧
      gilHeldAfter false w.deleterTrace = false := by
  intro Msg E cb w h
  have hw := MakeCallback_ok_inv cb w h
  subst hw
  refine ⟨rfl, ?_, rfl⟩
  intro i hi
  match i with
  | 0 => simp [AcquireGILDeleter] at hi
  | 1 => rfl
  | 2 => simp [AcquireGILDeleter] at hi
  | n + 3 => simp [AcquireGILDeleter] at hi

/-- Witness for C3 at a concrete registration. -/
theorem claim_C3_witness :
    (⟨fun _ => Except.ok (), AcquireGILDeleter⟩ :
        StoredCallback Nat String).deleterTrace = AcquireGILDeleter ∧
    gilHeldBefore false
      (⟨fun _ => Except.ok (), AcquireGILDeleter⟩ :
        StoredCallback Nat String).deleterTrace 1 = true :=
  ⟨(claim_C3_deleter_under_gil Nat String ⟨true, fun _ => Except.ok ()⟩ _ rfl).1,
   (claim_C3_deleter_under_gil Nat String ⟨true, fun _ => Except.ok ()⟩ _ rfl).2.1
     1 rfl⟩

/-- C4: a `CALL_WITHOUT_GIL` adapter, entered with the Ownership Token
held, forwards the native outcome unchanged, has the token released at
the native call (so the calling thread does not hold it for the native
call's duration), and has re-acquired it at every exit (the trace and
final held-state are independent of whether the native call succeeded
or failed).  Moreover a concrete valid two-thread schedule shows a
second thread holding the token and touching scripting objects exactly
while the first thread's native call is in progress. -/
theorem claim_C4_lock_gate_discipline :
    (∀ (σ α ε : Type) (fn : σ → Except ε α) (self : σ),
      (CALL_WITHOUT_GIL fn self).1 = fn self ∧
      (CALL_WITHOUT_GIL fn self).2 =
        [GilEvent.release, GilEvent.nativeCall, GilEvent.acquire] ∧
      (∀ i, (CALL_WITHOUT_GIL fn self).2.get? i = some GilEvent.nativeCall →
        gilHeldBefore true (CALL_WITHOUT_GIL fn self).2 i = false) ∧
      gilHeldAfter true (CALL_WITHOUT_GIL fn self).2 = true) ∧
    validSchedFrom (some true) interleavedSched = true ∧
    interleavedSched.get? 2 = some (true, GilEvent.nativeCall) ∧
    schedHolderAfter (some true) (interleavedSched.take 2) = some false ∧
    schedProj true interleavedSched =
      [GilEvent.release, GilEvent.nativeCall, GilEvent.acquire] ∧
    schedHolderAfter (some true) interleavedSched = some true := by
  refine ⟨?_, by decide, by decide, by decide, by decide, by decide⟩
  intro σ α ε fn self
  cases hfn : fn self with
  | ok a =>
    refine ⟨by rw [CALL_WITHOUT_GIL, hfn], by rw [CALL_WITHOUT_GIL, hfn], ?_,
      by rw [CALL_WITHOUT_GIL, hfn]; rfl⟩
    intro i h
    rw [CALL_WITHOUT_GIL, hfn] at h ⊢
    match i with
    | 0 => simp at h
    | 1 => rfl
    | 2 => simp at h
    | n + 3 => simp at h
  | error e =>
    refine ⟨by rw [CALL_WITHOUT_GIL, hfn], by rw [CALL_WITHOUT_GIL, hfn], ?_,
      by rw [CALL_WITHOUT_GIL, hfn]; rfl⟩
    intro i h
    rw [CALL_WITHOUT_GIL, hfn] at h ⊢
    match i with
    | 0 => simp at h
    | 1 => rfl
    | 2 => simp at h
    | n + 3 => simp at h

/-- Witness for C4 at a concrete succeeding and a concrete failing
native call. -/
theorem claim_C4_witness :
    gilHeldBefore true
      (CALL_WITHOUT_GIL (fun _ : Unit => (Except.ok 0 : Except String Nat)) ()).2
      1 = false ∧
    gilHeldAfter true
      (CALL_WITHOUT_GIL
        (fun _ : Unit => (Except.error "boom" : Except String Nat)) ()).2 = true :=
  ⟨(claim_C4_lock_gate_discipline.1 Unit Nat String
      (fun _ => Except.ok 0) ()).2.2.1 1 rfl,
   (claim_C4_lock_gate_discipline.1 Unit Nat String
      (fun _ => Except.error "boom") ()).2.2.2⟩

/-- C5: bridging a native ordered sequence to a scripting list with the
list-returning adapter and converting back with `PythonLitstToVector`
recovers the original sequence (same length, same order), provided the
element type round-trips. -/
theorem claim_C5_list_roundtrip :
    ∀ (σ α PyVal : Type) (fn : σ → List α) (toPy : α → PyVal)
      (extract : PyVal → Except PyErr α) (self : σ),
      (∀ x, extract (toPy x) = Except.ok x) →
      PythonLitstToVector extract (CALL_RETURNING_LIST fn toPy self) =
        Except.ok (fn self) := by
  intro σ α PyVal fn toPy extract self hrt
  rw [PythonLitstToVector_eq_extractAll, CALL_RETURNING_LIST_eq_map]
  exact extractAll_map_ok extract toPy hrt (fn self)

/-- Witness for C5 at a concrete three-element sequence. -/
theorem claim_C5_witness :
    PythonLitstToVector extractNatSample
      (CALL_RETURNING_LIST (fun _ : Unit => [3, 1, 2]) Option.some ()) =
      Except.ok [3, 1, 2] :=
  claim_C5_list_roundtrip Unit Nat (Option Nat) (fun _ => [3, 1, 2])
    Option.some extractNatSample () (fun _ => rfl)

/-- C6: `PythonLitstToVector` iterates the scripting list in index
order; on success the result holds, at each index, exactly the
extraction of the input element at that index (same length), and if the
first non-extractable element sits at index `i`, the conversion fails
with exactly that element's error — nothing is dropped or coerced. -/
theorem claim_C6_indexed_extraction :
    ∀ (PyVal τ : Type) (extract : PyVal → Except PyErr τ) (input : List PyVal),
      (∀ out, PythonLitstToVector extract input = Except.ok out →
        out.length = input.length ∧
        ∀ (j : Nat) (v : PyVal), input.get? j = some v →
          ∃ x, extract v = Except.ok x ∧ out.get? j = some x) ∧
      (∀ (i : Nat) (v : PyVal) (e : PyErr),
        input.get? i = some v →
        (∀ (j : Nat) (w : PyVal), j < i → input.get? j = some w →
          ∃ x, extract w = Except.ok x) →
        extract v = Except.error e →
        PythonLitstToVector extract input = Except.error e) := by
  intro PyVal τ extract input
  constructor
  · intro out h
    rw [PythonLitstToVector_eq_extractAll] at h
    exact extractAll_ok_pointwise extract input out h
  · intro i v e hv hpre hx
    rw [PythonLitstToVector_eq_extractAll]
    exact extractAll_error_first extract input i e v hv hpre hx

/-- Witness for C6: a list whose second element is not extractable makes
the conversion fail with exactly that element's error. -/
theorem claim_C6_witness :
    PythonLitstToVector extractNatSample
      [Option.some 1, Option.none, Option.some 2] =
      Except.error (PyErr.typeError "bad extract") :=
  (claim_C6_indexed_extraction (Option Nat) Nat extractNatSample
      [Option.some 1, Option.none, Option.some 2]).2 1 Option.none
    (PyErr.typeError "bad extract") rfl
    (by
      intro j w hj hw
      match j, hj with
      | 0, _ =>
        refine ⟨1, ?_⟩
        simp only [List.get?] at hw
        injection hw with hw
        rw [← hw]
        rfl)
    rfl

/-- C7: `OptionalToPythonObject` is total and deterministic: an absent
optional maps to the scripting null-equivalent, a present optional maps
to the wrapped contents, every optional hits exactly one of these two
outcomes, and repeated bridging yields equal results. -/
theorem claim_C7_optional_bridge :
    ∀ (τ : Type) (V : Option τ),
      (V = Option.none → OptionalToPythonObject V = PyObjectRep.noneObj) ∧
      (∀ x, V = Option.some x →
        OptionalToPythonObject V = PyObjectRep.wrapped x) ∧
      ((∃ x, V = Option.some x ∧
          OptionalToPythonObject V = PyObjectRep.wrapped x) ∨
        (V = Option.none ∧ OptionalToPythonObject V = PyObjectRep.noneObj)) ∧
      OptionalToPythonObject V = OptionalToPythonObject V := by
  intro τ V
  cases V with
  | none =>
    refine ⟨fun _ => rfl, fun x hx => ?_, Or.inr ⟨rfl, rfl⟩, rfl⟩
    cases hx
  | some x =>
    refine ⟨fun h => ?_, fun y hy => ?_, Or.inl ⟨x, rfl, rfl⟩, rfl⟩
    · cases h
    · cases hy
      rfl

/-- Witness for C7 at a concrete absent and a concrete present
optional. -/
theorem claim_C7_witness :
    OptionalToPythonObject (Option.none : Option Nat) = PyObjectRep.noneObj ∧
    OptionalToPythonObject (Option.some 7) = PyObjectRep.wrapped 7 :=
  ⟨(claim_C7_optional_bridge Nat Option.none).1 rfl,
   (claim_C7_optional_bridge Nat (Option.some 7)).2.1 7 rfl⟩

/-- C8: the printing adapters render an ordered sequence as
`[e0, e1, ...]` (comma-space separated inside square brackets), a pair
as `(first,second)`, and a null shared-pointer element as the literal
`nullptr` rather than its pointee. -/
theorem claim_C8_printing_format :
    ∀ (τ η : Type) (show_ : τ → String) (showSnd : η → String)
      (list : List τ) (ptrs : List (SharedPtr τ)) (data : τ × η),
      PrintList show_ list =
        "[" ++ commaSeparated (list.map show_) ++ "]" ∧
      printPair show_ showSnd data =
        "(" ++ show_ data.1 ++ "," ++ showSnd data.2 ++ ")" ∧
      PrintList (PrintListItemShared_ show_) ptrs =
        "[" ++ commaSeparated (ptrs.map (PrintListItemShared_ show_)) ++ "]" ∧
      PrintListItemShared_ show_ SharedPtr.nullptr = "nullptr" ∧
      (∀ x, PrintListItemShared_ show_ (SharedPtr.ptr x) = show_ x) := by
  intro τ η show_ showSnd list ptrs data
  exact ⟨PrintList_eq show_ list, rfl, PrintList_eq _ ptrs, rfl, fun _ => rfl⟩

/-- C9: loading the extension module sets the module path attribute to
`"libcarla"`; when every export succeeds, every subsystem's export (the
RSS safety layer exactly when the compile-time flag is set) is invoked
before the entry point returns; when an export fails, the failure is the
load's outcome and nothing past the failing export is invoked. -/
theorem claim_C9_module_init :
    ∀ (E : Type) (exp : Subsystem → Except E Unit) (rssEnabled : Bool),
      (BOOST_PYTHON_MODULE_libcarla exp rssEnabled).pathAttr = "libcarla" ∧
      ((∀ s, exp s = Except.ok ()) →
        (BOOST_PYTHON_MODULE_libcarla exp rssEnabled).outcome = Except.ok () ∧
        (BOOST_PYTHON_MODULE_libcarla exp rssEnabled).invoked =
          moduleExportOrder rssEnabled) ∧
      (∀ (pre : List Subsystem) (s : Subsystem) (post : List Subsystem) (e : E),
        moduleExportOrder rssEnabled = pre ++ s :: post →
        (∀ t ∈ pre, exp t = Except.ok ()) →
        exp s = Except.error e →
        (BOOST_PYTHON_MODULE_libcarla exp rssEnabled).outcome =
          Except.error e ∧
        (BOOST_PYTHON_MODULE_libcarla exp rssEnabled).invoked = pre ++ [s]) ∧
      (∀ s : Subsystem,
        s ∈ moduleExportOrder rssEnabled ↔
          (s = Subsystem.ad_rss → rssEnabled = true)) := by
  intro E exp rssEnabled
  refine ⟨rfl, ?_, ?_, ?_⟩
  · intro hall
    rw [BOOST_PYTHON_MODULE_libcarla]
    rw [runExports_all_ok exp (moduleExportOrder rssEnabled) []
      (fun s _ => hall s)]
    exact ⟨rfl, by simp⟩
  · intro pre s post e horder hpre hs
    rw [BOOST_PYTHON_MODULE_libcarla, horder,
      runExports_first_error exp pre s post [] e hpre hs]
    exact ⟨rfl, by simp⟩
  · intro s
    cases rssEnabled <;> cases s <;> decide

/-- Witness for C9: a fully succeeding export table invokes the whole
order, and a table failing at `client` aborts there. -/
theorem claim_C9_witness :
    (BOOST_PYTHON_MODULE_libcarla
        (fun _ : Subsystem => (Except.ok () : Except String Unit)) true).invoked =
      moduleExportOrder true ∧
    (BOOST_PYTHON_MODULE_libcarla expFailClient false).outcome =
      Except.error "native failure" ∧
    (BOOST_PYTHON_MODULE_libcarla expFailClient false).invoked =
      [Subsystem.geom, Subsystem.control, Subsystem.blueprint, Subsystem.actor,
       Subsystem.sensor, Subsystem.sensor_data, Subsystem.snapshot,
       Subsystem.weather, Subsystem.world, Subsystem.map, Subsystem.client] :=
  ⟨((claim_C9_module_init String (fun _ => Except.ok ()) true).2.1
      (fun _ => rfl)).2,
   ((claim_C9_module_init String expFailClient false).2.2.1
      [Subsystem.geom, Subsystem.control, Subsystem.blueprint, Subsystem.actor,
       Subsystem.sensor, Subsystem.sensor_data, Subsystem.snapshot,
       Subsystem.weather, Subsystem.world, Subsystem.map] Subsystem.client
      [Subsystem.exception_, Subsystem.commands, Subsystem.trafficmanager,
       Subsystem.lightmanager, Subsystem.osm2odr] "native failure" rfl
      (by intro t ht; fin_cases ht <;> rfl) rfl).1,
   ((claim_C9_module_init String expFailClient false).2.2.1
      [Subsystem.geom, Subsystem.control, Subsystem.blueprint, Subsystem.actor,
       Subsystem.sensor, Subsystem.sensor_data, Subsystem.snapshot,
       Subsystem.weather, Subsystem.world, Subsystem.map] Subsystem.client
      [Subsystem.exception_, Subsystem.commands, Subsystem.trafficmanager,
       Subsystem.lightmanager, Subsystem.osm2odr] "native failure" rfl
      (by intro t ht; fin_cases ht <;> rfl) rfl).2⟩
